import Mathlib

/-!
Shallow embedding of `src/app.py` (health_data webhook), covering the helpers
`fetch_json`, `find_disease_key`, `extract_disease_from_text`,
`extract_symptoms_from_text`, `get_symptoms`, `get_preventions`,
`process_disease_query` and `process_symptom_query`.

Python dictionaries preserve insertion order and are modelled as association
lists `List (String × α)`; every JSON document used by the program is a
mapping from a string key to a list of strings (for `diseases.json` the value
is the entry's synonym list, i.e. `info.get("synonyms", [])`), so documents
are `Doc := List (String × List String)`.  Python string primitives
(`lower`, `strip`, `split(",")`, `join`, substring `in`) are implemented
structurally on the character list of the string so that they compute by
kernel reduction.  Python `set` iteration order is runtime-dependent (hash
based, fixed within a process); the set is modelled as a
first-insertion-ordered duplicate-free list and the process's enumeration
function `σ : List String → List String` is passed explicitly where the
source iterates the set.  The network is an oracle
`Net := String → Option Doc`; `none` stands for any failure caught by the
`except` block of `fetch_json` (connection error, non-2xx status raised by
`raise_for_status`, or a body that `response.json()` cannot parse).
-/

namespace HealthData

/-- A parsed JSON document of this program: an insertion-ordered mapping from
string keys to lists of strings. -/
abbrev Doc := List (String × List String)

/-- Python substring test `needle in hay` on strings, char-list level:
`leadsWith p s` holds when `p` is an initial segment of `s`. -/
def leadsWith : List Char → List Char → Bool
  | [], _ => true
  | _ :: _, [] => false
  | a :: p, b :: s => a == b && leadsWith p s

/-- `hasSub p s` : `p` occurs contiguously somewhere inside `s`. -/
def hasSub (p : List Char) : List Char → Bool
  | [] => leadsWith p []
  | c :: rest => leadsWith p (c :: rest) || hasSub p rest

/-- Python `needle in hay` for strings. -/
def pyIn (needle hay : String) : Bool :=
  hasSub needle.data hay.data

/-- Python `str.lower()`, character by character. -/
def pyLower (s : String) : String :=
  ⟨s.data.map Char.toLower⟩

/-- Drop whitespace from both ends of a character list. -/
def stripChars (l : List Char) : List Char :=
  ((l.dropWhile Char.isWhitespace).reverse.dropWhile Char.isWhitespace).reverse

/-- Python `str.strip()`. -/
def pyStrip (s : String) : String :=
  ⟨stripChars s.data⟩

/-- Python `s.split(",")` at character level; the result is never empty and
keeps empty segments, as in Python. -/
def splitCommaChars : List Char → List (List Char)
  | [] => [[]]
  | c :: rest =>
    match splitCommaChars rest with
    | [] => [[c]]
    | h :: t => if c = ',' then [] :: h :: t else (c :: h) :: t

/-- Python `s.split(",")`. -/
def pySplitComma (s : String) : List String :=
  (splitCommaChars s.data).map (fun l => ⟨l⟩)

/-- Python `sep.join(parts)`. -/
def pyJoin (sep : String) : List String → String
  | [] => ""
  | [s] => s
  | s :: rest => s ++ sep ++ pyJoin sep rest

/-- Python emptiness/falsiness test for a string. -/
def pyEmpty (s : String) : Bool :=
  s.data.isEmpty

/-- First value of an association list whose key satisfies the test;
models a Python `for k, v in d.items():`-loop that stops on first hit. -/
def lookupAssoc (d : Doc) (test : String → Bool) : Option (List String) :=
  (d.find? (fun e => test e.1)).map (fun e => e.2)

/-- `d.get(key, [])` on a Python dict (keys compared exactly). -/
def getDefault (d : Doc) (key : String) : List String :=
  match lookupAssoc d (fun k => k == key) with
  | some v => v
  | none => []

/-- The process-wide `data_cache`, keyed by source URL. -/
abbrev Cache := List (String × Doc)

/-- The network: `some doc` when `requests.get` + `raise_for_status` +
`response.json()` all succeed, `none` on any failure. -/
abbrev Net := String → Option Doc

/-- Cache lookup `url in data_cache`. -/
def cacheLookup (c : Cache) (url : String) : Option Doc :=
  (c.find? (fun e => e.1 == url)).map (fun e => e.2)

/-- `fetch_json` from `src/app.py` lines 18-30: return the cached document if
present; otherwise try the network, cache and return the document on success,
and on any failure return the empty mapping without touching the cache. -/
def fetch_json (c : Cache) (net : Net) (url : String) : Doc × Cache :=
  match cacheLookup c url with
  | some d => (d, c)
  | none =>
    match net url with
    | some d => (d, c ++ [(url, d)])
    | none => (([] : Doc), c)

/-- One entry of `diseases.json` matches the lowercased input when its key or
one of its synonyms matches case-insensitively. -/
def entryMatches (ul : String) (e : String × List String) : Bool :=
  pyLower e.1 == ul || e.2.any (fun syn => pyLower syn == ul)

/-- Inner traversal of `find_disease_key`: for each `(disease, info)` in
order, return `disease` if the key matches or any synonym matches. -/
def findDiseaseAux (ul : String) : Doc → Option String
  | [] => none
  | (disease, syns) :: rest =>
    if pyLower disease == ul then some disease
    else if syns.any (fun syn => pyLower syn == ul) then some disease
    else findDiseaseAux ul rest

/-- `find_disease_key` from `src/app.py` lines 32-41. -/
def find_disease_key (user_input : String) (diseases_data : Doc) : Option String :=
  findDiseaseAux (pyLower user_input) diseases_data

/-- `extract_disease_from_text` from `src/app.py` lines 43-49: first disease
key that occurs as a case-insensitive substring of the text. -/
def extract_disease_from_text (user_input : String) (diseases_data : Doc) : Option String :=
  match diseases_data.find? (fun e => pyIn (pyLower e.1) (pyLower user_input)) with
  | some e => some e.1
  | none => none

/-- `extract_symptoms_from_text` from `src/app.py` lines 51-58: every mapping
key that occurs as a case-insensitive substring of the text, in mapping
order. -/
def extract_symptoms_from_text (user_input : String) : Doc → List String
  | [] => []
  | (symptom, _) :: rest =>
    if pyIn (pyLower symptom) (pyLower user_input)
    then symptom :: extract_symptoms_from_text user_input rest
    else extract_symptoms_from_text user_input rest

/-- Python truthiness of the `disease_key` value (`if not disease_key:`):
`None` and the empty string are falsy. -/
def keyTruthy : Option String → Bool
  | none => false
  | some s => !pyEmpty s

/-- `process_disease_query` from `src/app.py` lines 75-98, with the three
documents passed in place of the three `fetch_json` calls. -/
def process_disease_query (diseases_data symptoms_data preventions_data : Doc)
    (user_input : String) : String :=
  let resolved := find_disease_key user_input diseases_data
  let resolved := if keyTruthy resolved then resolved
                  else extract_disease_from_text user_input diseases_data
  match resolved with
  | some k =>
    if pyEmpty k then
      "Sorry, I do not have information about \x27" ++ user_input ++ "\x27."
    else
      let symptoms := getDefault symptoms_data k
      let preventions := getDefault preventions_data k
      let r := "Here’s what I found about " ++ k ++ ":"
      let r := if !symptoms.isEmpty
               then r ++ "\n🤒 Symptoms: " ++ pyJoin ", " symptoms ++ "."
               else r ++ "\n(No symptoms data available.)"
      if !preventions.isEmpty
      then r ++ "\n🛡 Prevention: " ++ pyJoin ", " preventions
      else r ++ "\n(No prevention info available.)"
  | none => "Sorry, I do not have information about \x27" ++ user_input ++ "\x27."

/-- Normalisation loop of `process_symptom_query` (`src/app.py` lines
105-112): an element containing a comma is split on commas, stripped, and
empty parts dropped; any other element is stripped and kept. -/
def normalize_symptoms : List String → List String
  | [] => []
  | s :: rest =>
    (if pyIn "," s
     then ((pySplitComma s).map pyStrip).filter (fun part => !pyEmpty part)
     else [pyStrip s]) ++ normalize_symptoms rest

/-- `possible_diseases.update(diseases)`: add each disease not already
present, keeping first-insertion order. -/
def updateSet (acc : List String) (ds : List String) : List String :=
  ds.foldl (fun a d => if a.contains d then a else a ++ [d]) acc

/-- The `# Check mapping` loop of `process_symptom_query` (`src/app.py` lines
114-125): for each normalised symptom, find the first mapping key equal to it
case-insensitively; on a hit union that key's diseases into the set, otherwise
append the symptom to `not_found`. -/
def checkMapping (mapping_data : Doc) :
    List String → List String × List String → List String × List String
  | [], st => st
  | symptom :: rest, (possible, notFound) =>
    match lookupAssoc mapping_data (fun k => pyLower k == pyLower symptom) with
    | some diseases => checkMapping mapping_data rest (updateSet possible diseases, notFound)
    | none => checkMapping mapping_data rest (possible, notFound ++ [symptom])

/-- The enumeration order the running process gives to a Python `set` built
by a given insertion sequence (hash based, fixed for the process lifetime). -/
abbrev SetOrder := List String → List String

/-- `process_symptom_query` from `src/app.py` lines 100-136.  `σ` is the
process's set-enumeration order, applied where the source iterates the set
`possible_diseases`. -/
def process_symptom_query (σ : SetOrder) (mapping_data : Doc)
    (symptoms_list : List String) : String :=
  let normalized := normalize_symptoms symptoms_list
  let st := checkMapping mapping_data normalized ([], [])
  let possible := st.1
  let notFound := st.2
  let parts :=
    (if !possible.isEmpty then
      ["🦠 Based on the symptom(s) " ++ pyJoin ", " normalized ++
       ", possible diseases are: " ++ pyJoin ", " (σ possible) ++ "."]
     else []) ++
    (if !notFound.isEmpty then
      ["⚠️ Symptoms not found in mapping: " ++ pyJoin ", " notFound ++ "."]
     else [])
  if parts.isEmpty then "Sorry, no disease info found for the given symptom(s)."
  else pyJoin "\n" parts

/-- URL of `mapping.json` (`src/app.py` line 12). -/
def MAPPING_URL : String :=
  "https://raw.githubusercontent.com/kattaNagasainikhila-wq/health_data/main/mapping.json"

/-- `process_symptom_query` together with its `fetch_json(MAPPING_URL)` call,
threading the cache state. -/
def process_symptom_query_run (σ : SetOrder) (c : Cache) (net : Net)
    (symptoms_list : List String) : String × Cache :=
  let fetched := fetch_json c net MAPPING_URL
  (process_symptom_query σ fetched.1 symptoms_list, fetched.2)

/-- `set()` built by inserting the given elements in order: duplicates
dropped, first occurrence kept. -/
def dedupFirst (l : List String) : List String :=
  updateSet [] l

/-- The disease lists of the mapping entries hit by the normalised symptoms,
in input order (misses skipped). -/
def matchedLists (m : Doc) (l : List String) : List (List String) :=
  l.filterMap (fun s => lookupAssoc m (fun k => pyLower k == pyLower s))

/-- A network oracle on which every request fails. -/
def noNet : Net := fun _ => none

/-- Follows the spec's words (§4.4, inverted-map variant), for comparison
with the code: union the disease lists returned for each input symptom and
assign each unioned disease a count equal to the number of distinct input
symptoms that named it.  The spec's inverted map is keyed by lowercase
symptom strings, so a symptom names the diseases stored under its lowercased
form. -/
def specUnionCounts (m : Doc) (symptoms : List String) : List (String × Nat) :=
  let distinct := dedupFirst symptoms
  let naming := fun (s : String) => (lookupAssoc m (fun k => k == pyLower s)).getD []
  let union := dedupFirst (distinct.map naming).flatten
  union.map (fun d => (d, (distinct.filter (fun s => (naming s).contains d)).length))

section Lemmas

theorem findDiseaseAux_eq (ul : String) (dd : Doc) :
    findDiseaseAux ul dd = (dd.find? (entryMatches ul)).map Prod.fst := by
  induction dd with
  | nil => rfl
  | cons e rest ih =>
    obtain ⟨d, syns⟩ := e
    simp only [findDiseaseAux]
    by_cases h1 : (pyLower d == ul) = true
    · rw [List.find?_cons_of_pos]
      · simp [h1]
      · simp [entryMatches, h1]
    · by_cases h2 : (syns.any fun syn => pyLower syn == ul) = true
      · rw [List.find?_cons_of_pos]
        · simp [h1, h2]
        · simp [entryMatches, h2]
      · rw [List.find?_cons_of_neg]
        · simp [h1, h2, ih]
        · simp [entryMatches, h1, h2]

theorem cacheLookup_append_of_some (c : Cache) (x : String × Doc) (u : String)
    (d0 : Doc) (h : cacheLookup c u = some d0) :
    cacheLookup (c ++ [x]) u = some d0 := by
  unfold cacheLookup at h ⊢
  cases hf : c.find? (fun e => e.1 == u) with
  | none => rw [hf] at h; simp at h
  | some e => rw [hf] at h; simp [List.find?_append, hf, h]

theorem updateSet_append (p xs ys : List String) :
    updateSet p (xs ++ ys) = updateSet (updateSet p xs) ys := by
  simp [updateSet, List.foldl_append]

theorem checkMapping_eq (m : Doc) (l : List String) (p nf : List String) :
    checkMapping m l (p, nf)
      = (updateSet p (matchedLists m l).flatten,
         nf ++ l.filter
           (fun s => (lookupAssoc m (fun k => pyLower k == pyLower s)).isNone)) := by
  induction l generalizing p nf with
  | nil => simp [checkMapping, matchedLists, updateSet]
  | cons s rest ih =>
    simp only [checkMapping]
    cases hl : lookupAssoc m (fun k => pyLower k == pyLower s) with
    | some ds =>
      simp only [hl, ih]
      simp [matchedLists, List.filterMap_cons, hl, updateSet_append, List.filter_cons]
    | none =>
      simp only [hl, ih]
      simp [matchedLists, List.filterMap_cons, hl, List.filter_cons]

theorem leadsWith_iff (p : List Char) : ∀ s : List Char,
    leadsWith p s = true ↔ ∃ r, s = p ++ r := by
  induction p with
  | nil => intro s; simp [leadsWith]
  | cons a p ih =>
    intro s
    cases s with
    | nil => simp [leadsWith]
    | cons b s =>
      simp only [leadsWith, Bool.and_eq_true, beq_iff_eq]
      constructor
      · rintro ⟨rfl, h⟩
        obtain ⟨r, rfl⟩ := (ih s).mp h
        exact ⟨r, rfl⟩
      · rintro ⟨r, hr⟩
        injection hr with h1 h2
        exact ⟨h1.symm, (ih s).mpr ⟨r, h2⟩⟩

theorem hasSub_iff (p : List Char) : ∀ s : List Char,
    hasSub p s = true ↔ ∃ l r, s = l ++ (p ++ r) := by
  intro s
  induction s with
  | nil =>
    simp only [hasSub, leadsWith_iff]
    constructor
    · rintro ⟨r, hr⟩
      exact ⟨[], r, hr⟩
    · rintro ⟨l, r, hr⟩
      cases l with
      | nil => exact ⟨r, hr⟩
      | cons x l => simp at hr
  | cons c s ih =>
    simp only [hasSub, Bool.or_eq_true, leadsWith_iff, ih]
    constructor
    · rintro (⟨r, hr⟩ | ⟨l, r, rfl⟩)
      · exact ⟨[], r, hr⟩
      · exact ⟨c :: l, r, rfl⟩
    · rintro ⟨l, r, hr⟩
      cases l with
      | nil => exact Or.inl ⟨r, hr⟩
      | cons x l =>
        injection hr with h1 h2
        exact Or.inr ⟨l, r, h2⟩

theorem extract_symptoms_eq (text : String) (m : Doc) :
    extract_symptoms_from_text text m
      = (m.map Prod.fst).filter (fun k => pyIn (pyLower k) (pyLower text)) := by
  induction m with
  | nil => rfl
  | cons e rest ih =>
    obtain ⟨symptom, v⟩ := e
    simp only [extract_symptoms_from_text, List.map_cons, List.filter_cons]
    by_cases h : pyIn (pyLower symptom) (pyLower text) = true
    · simp [h, ih]
    · simp [h, ih]

end Lemmas

section Claims

/-- Claim C1, counterexample: `process_symptom_query` does not carry match
counts.  Two mappings on which the spec's inverted-map algorithm assigns
different counts to Flu and Cold (2/1 against 1/2) produce identical
responses, so the operation's result cannot carry a count per disease, let
alone rank by it. -/
theorem c1_counterexample :
    process_symptom_query id [("fever", ["Flu", "Cold"]), ("cough", ["Flu"])]
        ["fever", "cough"]
      = process_symptom_query id [("fever", ["Flu", "Cold"]), ("cough", ["Cold"])]
        ["fever", "cough"]
    ∧ specUnionCounts [("fever", ["Flu", "Cold"]), ("cough", ["Flu"])]
        ["fever", "cough"] = [("Flu", 2), ("Cold", 1)]
    ∧ specUnionCounts [("fever", ["Flu", "Cold"]), ("cough", ["Cold"])]
        ["fever", "cough"] = [("Flu", 1), ("Cold", 2)]
    ∧ specUnionCounts [("fever", ["Flu", "Cold"]), ("cough", ["Flu"])]
        ["fever", "cough"]
      ≠ specUnionCounts [("fever", ["Flu", "Cold"]), ("cough", ["Cold"])]
        ["fever", "cough"] :=
  ⟨by decide, by decide, by decide, by decide⟩

/-- Claim C1, amended: the symptom-matching operation computes no match
counts, percents or ranking; its disease set is exactly the union of the
disease lists of the matched input symptoms, in first-insertion order, and
on the inverted mapping of the spec's example it reports the bare names Flu
and Cold. -/
theorem c1_union_without_ranking (m : Doc) (l : List String) :
    (checkMapping m (normalize_symptoms l) ([], [])).1
      = dedupFirst (matchedLists m (normalize_symptoms l)).flatten
    ∧ process_symptom_query id
        [("fever", ["Flu"]), ("cough", ["Flu", "Cold"]), ("sneezing", ["Cold"])]
        ["fever", "cough"]
      = "🦠 Based on the symptom(s) fever, cough, possible diseases are: Flu, Cold." := by
  constructor
  · rw [checkMapping_eq]
    rfl
  · decide

/-- Claim C2, counterexample: in a table where the earlier disease Flu lists
"grippe" as a synonym and a later disease is canonically named Grippe,
resolving the canonical name "Grippe" returns Flu, not Grippe. -/
theorem c2_counterexample :
    find_disease_key "Grippe" [("Flu", ["grippe"]), ("Grippe", [])] = some "Flu"
    ∧ find_disease_key "Grippe" [("Flu", ["grippe"]), ("Grippe", [])] ≠ some "Grippe"
    ∧ ("Grippe", ([] : List String)) ∈ ([("Flu", ["grippe"]), ("Grippe", [])] : Doc) := by
  decide

/-- Claim C2, amended: resolving a canonical disease name (in any letter
case) returns that disease, and resolving one of its synonyms (in any letter
case) returns that disease, provided no earlier-iterated entry's key or
synonym set matches the input case-insensitively. -/
theorem c2_resolve_without_earlier_collision (pre post : Doc) (d : String)
    (syns : List String) (u s v : String)
    (hu : pyLower u = pyLower d) (hs : s ∈ syns) (hv : pyLower v = pyLower s)
    (hpu : ∀ e ∈ pre, entryMatches (pyLower u) e = false)
    (hpv : ∀ e ∈ pre, entryMatches (pyLower v) e = false) :
    find_disease_key u (pre ++ (d, syns) :: post) = some d
    ∧ find_disease_key v (pre ++ (d, syns) :: post) = some d := by
  constructor
  · unfold find_disease_key
    rw [findDiseaseAux_eq, List.find?_append,
        List.find?_eq_none.mpr (fun e he => by simp [hpu e he])]
    rw [Option.none_or, List.find?_cons_of_pos]
    · rfl
    · simp [entryMatches, hu]
  · unfold find_disease_key
    rw [findDiseaseAux_eq, List.find?_append,
        List.find?_eq_none.mpr (fun e he => by simp [hpv e he])]
    rw [Option.none_or, List.find?_cons_of_pos]
    · rfl
    · simp only [entryMatches, Bool.or_eq_true, List.any_eq_true]
      exact Or.inr ⟨s, hs, by simp [hv]⟩

/-- Claim C2, witness for `c2_resolve_without_earlier_collision` at a
one-entry table. -/
theorem c2_witness :
    find_disease_key "FLU" [("Flu", ["grippe"])] = some "Flu"
    ∧ find_disease_key "Grippe" [("Flu", ["grippe"])] = some "Flu" :=
  c2_resolve_without_earlier_collision [] [] "Flu" ["grippe"] "FLU" "grippe" "Grippe"
    (by decide) (by decide) (by decide) (by simp) (by simp)

/-- Claim C3, counterexample: an input that is a synonym of an
earlier-iterated disease and the canonical key of a later-iterated disease
resolves to the earlier disease, not (as the claim says) the later one. -/
theorem c3_counterexample :
    find_disease_key "grippe" [("Flu", ["grippe"]), ("Grippe", [])] = some "Flu"
    ∧ ("Flu" : String) ≠ "Grippe" := by
  decide

/-- Claim C3, amended: the resolver interleaves key and synonym checks per
entry: it returns the key of the first entry, in table order, whose key or
synonym set matches case-insensitively, so canonical keys take precedence
over synonyms only within a single entry, and an input that is a synonym of
an earlier entry and the canonical key of a later entry resolves to the
earlier entry's key. -/
theorem c3_first_match_interleaved (u : String) (dd : Doc) :
    find_disease_key u dd = (dd.find? (entryMatches (pyLower u))).map Prod.fst
    ∧ find_disease_key "grippe" [("Flu", ["grippe"]), ("Grippe", [])] = some "Flu" :=
  ⟨findDiseaseAux_eq (pyLower u) dd, by decide⟩

/-- Claim C4, counterexample: normalisation does not lowercase, so the list
input from the claim normalises to `["Fever", "Cough"]`, not
`["fever", "cough"]`. -/
theorem c4_counterexample :
    normalize_symptoms ["Fever", " Cough "] = ["Fever", "Cough"]
    ∧ normalize_symptoms ["Fever", " Cough "] ≠ ["fever", "cough"] := by
  decide

/-- Claim C4, amended: normalisation is element-wise; it splits
comma-containing elements on commas, strips whitespace and drops empty
split parts, but neither lowercases, nor strips punctuation, nor splits on
the separator "and" — so `["Fever", " Cough "]` normalises to
`["Fever", "Cough"]` and the free-text-style element
`"fever, cough and headache"` to `["fever", "cough and headache"]`. -/
theorem c4_comma_only_normalization (l1 l2 : List String) :
    normalize_symptoms (l1 ++ l2) = normalize_symptoms l1 ++ normalize_symptoms l2
    ∧ normalize_symptoms ["Fever", " Cough "] = ["Fever", "Cough"]
    ∧ normalize_symptoms ["fever, cough and headache"]
      = ["fever", "cough and headache"] := by
  refine ⟨?_, by decide, by decide⟩
  induction l1 with
  | nil => rfl
  | cons s rest ih => simp [normalize_symptoms, ih]

/-- Claim C5: when the fetch for an uncached URL fails, `fetch_json` returns
the empty mapping and leaves the cache unchanged, a second failing call does
the same, and a later call on a recovered network performs the fetch and
caches its result. -/
theorem c5_failure_not_cached (c : Cache) (net : Net) (url : String)
    (hmiss : cacheLookup c url = none) (hfail : net url = none) :
    fetch_json c net url = (([] : Doc), c)
    ∧ fetch_json (fetch_json c net url).2 net url = (([] : Doc), c)
    ∧ ∀ net2 : Net, ∀ d : Doc, net2 url = some d →
        fetch_json (fetch_json c net url).2 net2 url = (d, c ++ [(url, d)]) := by
  have h1 : fetch_json c net url = (([] : Doc), c) := by
    simp [fetch_json, hmiss, hfail]
  refine ⟨h1, ?_, ?_⟩
  · rw [h1]
    exact h1
  · intro net2 d hd
    rw [h1]
    simp [fetch_json, hmiss, hd]

/-- Claim C5, witness for `c5_failure_not_cached` on an empty cache and an
unreachable network. -/
theorem c5_witness : fetch_json [] noNet "u" = (([] : Doc), ([] : Cache)) :=
  (c5_failure_not_cached [] noNet "u" rfl rfl).1

/-- Claim C6: once a document is cached for a URL, `fetch_json` returns the
stored document with the cache unchanged, independently of the network
oracle (no new retrieval can influence the result), and no `fetch_json`
call, for any URL, removes or replaces an existing cache entry. -/
theorem c6_cache_write_once (c : Cache) (net : Net) (url : String) (d : Doc)
    (hhit : cacheLookup c url = some d) :
    fetch_json c net url = (d, c)
    ∧ (∀ net2 : Net, fetch_json c net2 url = (d, c))
    ∧ (∀ net2 : Net, ∀ url2 u : String, ∀ d0 : Doc,
        cacheLookup c u = some d0 →
        cacheLookup (fetch_json c net2 url2).2 u = some d0) := by
  have h1 : ∀ net2 : Net, fetch_json c net2 url = (d, c) := fun net2 => by
    simp [fetch_json, hhit]
  refine ⟨h1 net, h1, ?_⟩
  intro net2 url2 u d0 h0
  cases h2 : cacheLookup c url2 with
  | some dd => simp [fetch_json, h2, h0]
  | none =>
    cases h3 : net2 url2 with
    | some dd =>
      simp only [fetch_json, h2, h3]
      exact cacheLookup_append_of_some c (url2, dd) u d0 h0
    | none => simp [fetch_json, h2, h3, h0]

/-- Claim C6, witness for `c6_cache_write_once` on a one-entry cache. -/
theorem c6_witness :
    fetch_json [("u", [("k", ["v"])])] noNet "u"
      = ([("k", ["v"])], [("u", [("k", ["v"])])]) :=
  (c6_cache_write_once [("u", [("k", ["v"])])] noNet "u" [("k", ["v"])] rfl).1

/-- Claim C7, counterexample: the input "about flu" matches no key or
synonym exactly, so the resolver returns `none`; yet `process_disease_query`
does not answer with the not-found message, because its substring fallback
`extract_disease_from_text` detects "flu" inside the text. -/
theorem c7_counterexample :
    find_disease_key "about flu" [("Flu", [])] = none
    ∧ process_disease_query [("Flu", [])] [] [] "about flu"
      = "Here’s what I found about Flu:\n(No symptoms data available.)\n(No prevention info available.)"
    ∧ process_disease_query [("Flu", [])] [] [] "about flu"
      ≠ "Sorry, I do not have information about \x27about flu\x27." := by
  refine ⟨by decide, by decide, by decide⟩

/-- Claim C7, amended: for an input matching no key or synonym exactly
(case-insensitively) the resolver returns `none`; and when the input
additionally contains no canonical key as a case-insensitive substring, the
disease query returns the user-facing not-found message instead of raising. -/
theorem c7_unresolved_not_found (dd sd pd : Doc) (u : String)
    (h1 : ∀ e ∈ dd, entryMatches (pyLower u) e = false)
    (h2 : ∀ e ∈ dd, pyIn (pyLower e.1) (pyLower u) = false) :
    find_disease_key u dd = none
    ∧ process_disease_query dd sd pd u
      = "Sorry, I do not have information about \x27" ++ u ++ "\x27." := by
  have hfind : find_disease_key u dd = none := by
    unfold find_disease_key
    rw [findDiseaseAux_eq, List.find?_eq_none.mpr (fun e he => by simp [h1 e he])]
    rfl
  have hext : extract_disease_from_text u dd = none := by
    unfold extract_disease_from_text
    rw [List.find?_eq_none.mpr (fun e he => by simp [h2 e he])]
  exact ⟨hfind, by simp [process_disease_query, hfind, hext, keyTruthy]⟩

/-- Claim C7, witness for `c7_unresolved_not_found` at input "zzz" against a
one-entry table. -/
theorem c7_witness :
    find_disease_key "zzz" [("Flu", [])] = none
    ∧ process_disease_query [("Flu", [])] [] [] "zzz"
      = "Sorry, I do not have information about \x27" ++ "zzz" ++ "\x27." :=
  c7_unresolved_not_found [("Flu", [])] [] [] "zzz" (by decide) (by decide)

/-- Claim C8: with the symptom-to-disease mapping already cached, a run of
the symptom query returns a response determined by the mapping and the input
alone and leaves the cache unchanged, so an immediately repeated run — even
against a different network oracle — produces the identical response
string. -/
theorem c8_deterministic_runs (σ : SetOrder) (c : Cache) (net1 net2 : Net)
    (l : List String) (m : Doc) (h : cacheLookup c MAPPING_URL = some m) :
    process_symptom_query_run σ c net1 l = (process_symptom_query σ m l, c)
    ∧ process_symptom_query_run σ (process_symptom_query_run σ c net1 l).2 net2 l
      = process_symptom_query_run σ c net1 l := by
  have h1 : ∀ nt : Net, process_symptom_query_run σ c nt l
      = (process_symptom_query σ m l, c) := fun nt => by
    simp [process_symptom_query_run, fetch_json, h]
  refine ⟨h1 net1, ?_⟩
  rw [h1 net1]
  exact h1 net2

/-- Claim C8, witness for `c8_deterministic_runs` with the empty mapping
cached and an unreachable network. -/
theorem c8_witness :
    process_symptom_query_run id [(MAPPING_URL, [])] noNet ["x"]
      = (process_symptom_query id [] ["x"], [(MAPPING_URL, [])]) :=
  (c8_deterministic_runs id [(MAPPING_URL, [])] noNet noNet ["x"] [] rfl).1

/-- Claim C9, counterexample: when no symptom matches any mapping key the
operation returns the warning segment, not the fixed message
"Sorry, no disease info found for the given symptom(s)." which the claim
asserts. -/
theorem c9_counterexample :
    process_symptom_query id [] ["fever"]
      = "⚠️ Symptoms not found in mapping: fever."
    ∧ process_symptom_query id [] ["fever"]
      ≠ "Sorry, no disease info found for the given symptom(s)." := by
  decide

/-- Claim C9, amended: the unmatched normalised symptoms are exactly those
whose lowercased form equals no mapping key's lowercased form, kept in input
order; when some symptom matched and some did not, the response is the
diseases segment and the warning segment joined by a newline; when none
matched, the response is the warning segment alone; the fixed sorry message
appears when both the matched-disease set and the not-found list are empty. -/
theorem c9_not_found_reporting (σ : SetOrder) (m : Doc) (l : List String) :
    (checkMapping m (normalize_symptoms l) ([], [])).2
      = (normalize_symptoms l).filter
          (fun s => (lookupAssoc m (fun k => pyLower k == pyLower s)).isNone)
    ∧ ((checkMapping m (normalize_symptoms l) ([], [])).1 = [] →
       (checkMapping m (normalize_symptoms l) ([], [])).2 ≠ [] →
       process_symptom_query σ m l
         = "⚠️ Symptoms not found in mapping: " ++
           pyJoin ", " (checkMapping m (normalize_symptoms l) ([], [])).2 ++ ".")
    ∧ ((checkMapping m (normalize_symptoms l) ([], [])).1 ≠ [] →
       (checkMapping m (normalize_symptoms l) ([], [])).2 ≠ [] →
       process_symptom_query σ m l
         = pyJoin "\n"
             ["🦠 Based on the symptom(s) " ++ pyJoin ", " (normalize_symptoms l) ++
              ", possible diseases are: " ++
              pyJoin ", " (σ (checkMapping m (normalize_symptoms l) ([], [])).1) ++ ".",
              "⚠️ Symptoms not found in mapping: " ++
              pyJoin ", " (checkMapping m (normalize_symptoms l) ([], [])).2 ++ "."])
    ∧ ((checkMapping m (normalize_symptoms l) ([], [])).1 = [] →
       (checkMapping m (normalize_symptoms l) ([], [])).2 = [] →
       process_symptom_query σ m l
         = "Sorry, no disease info found for the given symptom(s).") := by
  refine ⟨?_, ?_, ?_, ?_⟩
  · rw [checkMapping_eq]
    simp
  · intro h1 h2
    rcases hnf : (checkMapping m (normalize_symptoms l) ([], [])).2 with _ | ⟨x, xs⟩
    · exact absurd hnf h2
    · simp [process_symptom_query, h1, hnf, pyJoin]
  · intro h1 h2
    rcases hp : (checkMapping m (normalize_symptoms l) ([], [])).1 with _ | ⟨y, ys⟩
    · exact absurd hp h1
    rcases hnf : (checkMapping m (normalize_symptoms l) ([], [])).2 with _ | ⟨x, xs⟩
    · exact absurd hnf h2
    · simp [process_symptom_query, hp, hnf, pyJoin]
  · intro h1 h2
    simp [process_symptom_query, h1, h2]

/-- Claim C10: symptom extraction from raw text returns exactly the mapping
keys occurring as case-insensitive substrings of the text, in mapping order;
the substring test is genuine contiguous-occurrence, so a key embedded in a
longer word is also detected, e.g. "fever" inside "feverish". -/
theorem c10_substring_extraction (text : String) (m : Doc) :
    extract_symptoms_from_text text m
      = (m.map Prod.fst).filter (fun k => pyIn (pyLower k) (pyLower text))
    ∧ (∀ needle hay : String,
        pyIn needle hay = true ↔ ∃ l r : List Char, hay.data = l ++ (needle.data ++ r))
    ∧ extract_symptoms_from_text "feverish" [("fever", ["Flu"])] = ["fever"] :=
  ⟨extract_symptoms_eq text m,
   fun needle hay => hasSub_iff needle.data hay.data,
   by decide⟩

end Claims

end HealthData
